import Mathlib

/-!
Shallow embedding of the transport core of the `opensubsonic-rs` client library:
`src/auth.rs`, `src/client.rs`, `src/error.rs`, and the payload-extraction
fragments of `src/api/browsing.rs`.

Modelling conventions:
* JSON values are an inductive `Json`; numbers are modelled as integers
  (all numbers relevant to the transport core — error codes, folder ids —
  are integral on the wire).
* Machine integers (`i32`, `i64`, the 32-bit words of MD5) are `Int`/`Nat`
  with explicit range checks / `% 2^32` where overflow matters.
* The random salt bytes drawn from `rand::thread_rng` in `generate_salt`
  are externalized: the signing operation takes the six random bytes as an
  explicit argument.
* `reqwest`/network effects are externalized: the decoding stage of
  `Client::get_response` / `Client::get_bytes` is modelled as a pure
  function of the response body (given as the result of the JSON parser)
  and of the declared content type.
-/

namespace OpenSubsonic

/-! ## JSON values (model of `serde_json::Value` restricted to integral numbers) -/

inductive Json where
  | null : Json
  | bool (b : Bool) : Json
  | num (n : Int) : Json
  | str (s : String) : Json
  | arr (elems : List Json) : Json
  | obj (fields : List (String × Json)) : Json

/-- Key lookup in a JSON object field list (model of `serde_json::Map::get`). -/
def jlookup : List (String × Json) → String → Option Json
  | [], _ => none
  | (k, v) :: rest, key => if k == key then some v else jlookup rest key

/-- Model of `serde_json::Value::get`: object lookup, `None` on non-objects. -/
def jget : Json → String → Option Json
  | .obj fields, key => jlookup fields key
  | _, _ => none

/-! ## `src/error.rs` -/

/-- Subsonic API error codes (`SubsonicErrorCode` in `src/error.rs`). -/
inductive SubsonicErrorCode where
  | Generic
  | MissingParameter
  | ClientMustUpgrade
  | ServerMustUpgrade
  | WrongCredentials
  | TokenAuthNotSupported
  | NotAuthorized
  | TrialExpired
  | NotFound
deriving DecidableEq

/-- `SubsonicErrorCode::from_code`. -/
def SubsonicErrorCode.from_code (code : Int) : Option SubsonicErrorCode :=
  if code = 0 then some .Generic
  else if code = 10 then some .MissingParameter
  else if code = 20 then some .ClientMustUpgrade
  else if code = 30 then some .ServerMustUpgrade
  else if code = 40 then some .WrongCredentials
  else if code = 41 then some .TokenAuthNotSupported
  else if code = 50 then some .NotAuthorized
  else if code = 60 then some .TrialExpired
  else if code = 70 then some .NotFound
  else none

/-- `SubsonicApiError` (numeric code + message) from `src/error.rs`. -/
structure SubsonicApiError where
  code : Int
  message : String
deriving DecidableEq

/-- `SubsonicApiError::error_code`. -/
def SubsonicApiError.error_code (e : SubsonicApiError) : Option SubsonicErrorCode :=
  SubsonicErrorCode.from_code e.code

/-- The client error enumeration `Error` from `src/error.rs`.
The payloads of transport-level variants (`reqwest::Error`, `url::ParseError`)
are irrelevant to the decoding logic and carried as strings. -/
inductive Error where
  | Http (msg : String)
  | Api (e : SubsonicApiError)
  | Parse (msg : String)
  | Url (msg : String)
  | Other (msg : String)

/-! ## Hex encoding, UTF-8 bytes (`src/auth.rs` helpers) -/

/-- Lowercase hex digit for a nibble (`format!` with the `x` conversion). -/
def hexDigit (n : Nat) : Char :=
  if n < 10 then Char.ofNat (48 + n) else Char.ofNat (87 + n)

/-- Character list of the lowercase hex encoding of a byte list
(each byte printed as two lowercase hex digits, as `{b:02x}` does for `u8`). -/
def hexChars : List Nat → List Char
  | [] => []
  | b :: rest => hexDigit (b / 16 % 16) :: hexDigit (b % 16) :: hexChars rest

/-- `hex_encode` from `src/auth.rs`: lowercase hex string of a byte list. -/
def hex_encode (bytes : List Nat) : String :=
  String.mk (hexChars bytes)

/-- UTF-8 encoding of a single character (what `str::as_bytes` exposes). -/
def utf8Char (c : Char) : List Nat :=
  let n := c.toNat
  if n < 128 then [n]
  else if n < 2048 then [192 + n / 64, 128 + n % 64]
  else if n < 65536 then [224 + n / 4096, 128 + n / 64 % 64, 128 + n % 64]
  else [240 + n / 262144, 128 + n / 4096 % 64, 128 + n / 64 % 64, 128 + n % 64]

/-- The UTF-8 bytes of a string (`str::as_bytes` in Rust). -/
def strBytes (s : String) : List Nat :=
  s.data.flatMap utf8Char

/-! ## MD5 (the digest primitive used by `compute_token`)

The `md5` crate computes standard MD5.  We embed the algorithm over `Nat`
with explicit reduction modulo `2^32`. -/

def M32 : Nat := 4294967296

def add32 (a b : Nat) : Nat := (a + b) % M32

/-- Left-rotation of a 32-bit word. -/
def rotl32 (x s : Nat) : Nat :=
  ((x % M32) * 2 ^ s + (x % M32) / 2 ^ (32 - s)) % M32

def mdF (b c d : Nat) : Nat := (b &&& c) ||| ((b ^^^ (M32 - 1)) &&& d)
def mdG (b c d : Nat) : Nat := (d &&& b) ||| ((d ^^^ (M32 - 1)) &&& c)
def mdH (b c d : Nat) : Nat := b ^^^ c ^^^ d
def mdI (b c d : Nat) : Nat := c ^^^ (b ||| (d ^^^ (M32 - 1)))

/-- MD5 round constants (floor(abs(sin(i+1)) * 2^32)). -/
def mdK : List Nat :=
  [0xd76aa478, 0xe8c7b756, 0x242070db, 0xc1bdceee,
   0xf57c0faf, 0x4787c62a, 0xa8304613, 0xfd469501,
   0x698098d8, 0x8b44f7af, 0xffff5bb1, 0x895cd7be,
   0x6b901122, 0xfd987193, 0xa679438e, 0x49b40821,
   0xf61e2562, 0xc040b340, 0x265e5a51, 0xe9b6c7aa,
   0xd62f105d, 0x02441453, 0xd8a1e681, 0xe7d3fbc8,
   0x21e1cde6, 0xc33707d6, 0xf4d50d87, 0x455a14ed,
   0xa9e3e905, 0xfcefa3f8, 0x676f02d9, 0x8d2a4c8a,
   0xfffa3942, 0x8771f681, 0x6d9d6122, 0xfde5380c,
   0xa4beea44, 0x4bdecfa9, 0xf6bb4b60, 0xbebfbc70,
   0x289b7ec6, 0xeaa127fa, 0xd4ef3085, 0x04881d05,
   0xd9d4d039, 0xe6db99e5, 0x1fa27cf8, 0xc4ac5665,
   0xf4292244, 0x432aff97, 0xab9423a7, 0xfc93a039,
   0x655b59c3, 0x8f0ccc92, 0xffeff47d, 0x85845dd1,
   0x6fa87e4f, 0xfe2ce6e0, 0xa3014314, 0x4e0811a1,
   0xf7537e82, 0xbd3af235, 0x2ad7d2bb, 0xeb86d391]

/-- MD5 per-round left-rotation amounts. -/
def mdS : List Nat :=
  [7, 12, 17, 22, 7, 12, 17, 22, 7, 12, 17, 22, 7, 12, 17, 22,
   5, 9, 14, 20, 5, 9, 14, 20, 5, 9, 14, 20, 5, 9, 14, 20,
   4, 11, 16, 23, 4, 11, 16, 23, 4, 11, 16, 23, 4, 11, 16, 23,
   6, 10, 15, 21, 6, 10, 15, 21, 6, 10, 15, 21, 6, 10, 15, 21]

/-- Little-endian serialization of a 64-bit length into 8 bytes. -/
def le8 (n : Nat) : List Nat :=
  (List.range 8).map (fun i => n / 2 ^ (8 * i) % 256)

/-- MD5 padding: append `0x80`, zero bytes up to 56 mod 64, then the
64-bit little-endian bit length. -/
def md5Pad (msg : List Nat) : List Nat :=
  let z := (119 - msg.length % 64) % 64
  msg ++ [0x80] ++ List.replicate z 0 ++ le8 (msg.length * 8 % 2 ^ 64)

/-- Split a 64-byte block into 16 little-endian 32-bit words. -/
def toWords : List Nat → List Nat
  | b0 :: b1 :: b2 :: b3 :: rest =>
      (b0 + b1 * 256 + b2 * 65536 + b3 * 16777216) :: toWords rest
  | _ => []

/-- Cut the padded message into 64-byte blocks.  The first argument is
fuel bounding the number of blocks (structural recursion so the kernel can
evaluate it); callers pass the list length, which always suffices. -/
def md5Chunks : Nat → List Nat → List (List Nat)
  | 0, _ => []
  | _ + 1, [] => []
  | fuel + 1, l => l.take 64 :: md5Chunks fuel (l.drop 64)

/-- One MD5 round on state `(a, b, c, d)` with message words `m`. -/
def md5Round (m : List Nat) (st : Nat × Nat × Nat × Nat) (i : Nat) :
    Nat × Nat × Nat × Nat :=
  let a := st.1
  let b := st.2.1
  let c := st.2.2.1
  let d := st.2.2.2
  let fg : Nat × Nat :=
    if i < 16 then (mdF b c d, i)
    else if i < 32 then (mdG b c d, (5 * i + 1) % 16)
    else if i < 48 then (mdH b c d, (3 * i + 5) % 16)
    else (mdI b c d, 7 * i % 16)
  let f := (fg.1 + a + mdK.getD i 0 + m.getD fg.2 0) % M32
  (d, add32 b (rotl32 f (mdS.getD i 0)), b, c)

/-- Process one 64-byte block. -/
def md5Block (st : Nat × Nat × Nat × Nat) (block : List Nat) :
    Nat × Nat × Nat × Nat :=
  let m := toWords block
  let r := (List.range 64).foldl (md5Round m) st
  (add32 st.1 r.1, add32 st.2.1 r.2.1, add32 st.2.2.1 r.2.2.1,
   add32 st.2.2.2 r.2.2.2)

def md5Init : Nat × Nat × Nat × Nat :=
  (0x67452301, 0xefcdab89, 0x98badcfe, 0x10325476)

/-- Little-endian serialization of a 32-bit word into 4 bytes. -/
def wordLE (w : Nat) : List Nat :=
  [w % 256, w / 256 % 256, w / 65536 % 256, w / 16777216 % 256]

/-- Serialize the final MD5 state into the 16 digest bytes. -/
def md5Digest (st : Nat × Nat × Nat × Nat) : List Nat :=
  wordLE st.1 ++ wordLE st.2.1 ++ wordLE st.2.2.1 ++ wordLE st.2.2.2

/-- MD5 digest (16 bytes) of a byte list. -/
def md5 (msg : List Nat) : List Nat :=
  md5Digest ((md5Chunks (md5Pad msg).length (md5Pad msg)).foldl md5Block md5Init)

/-! ## `src/auth.rs` -/

/-- The authentication configuration enumeration `Auth`. -/
inductive Auth where
  | Token (password : String)
  | Plain (password : String)

/-- `compute_token` from `src/auth.rs`: the hex-encoded MD5 of
`password || salt` (the hasher is updated with the password bytes and then
the salt bytes, which digests their concatenation). -/
def compute_token (password salt : String) : String :=
  hex_encode (md5 (strBytes password ++ strBytes salt))

/-- `generate_salt` from `src/auth.rs` hex-encodes 6 random bytes drawn from
`rand::thread_rng`; the random bytes are an explicit argument here. -/
def generate_salt (randomBytes : List Nat) : String :=
  hex_encode randomBytes

/-- `Auth::params`: per-request authentication query parameters.
`saltBytes` are the 6 random bytes drawn inside `generate_salt` for the
Token branch (unused by the Plain branch). -/
def Auth.params (a : Auth) (saltBytes : List Nat) : List (String × String) :=
  match a with
  | .Token password =>
      let salt := generate_salt saltBytes
      let token := compute_token password salt
      [("t", token), ("s", salt)]
  | .Plain password =>
      let hex_password := hex_encode (strBytes password)
      [("p", "enc:" ++ hex_password)]

/-! ## `Client::build_url` (`src/client.rs`, lines 106–143) -/

/-- Model of the `path.ends_with('/')` test (the char pattern of
`str::ends_with`): true iff the last character is `/`. -/
def endsWithSlash (s : String) : Bool :=
  match s.data.getLast? with
  | some c => c == '/'
  | none => false

/-- Path composition step of `Client::build_url`: take the base URL path,
append a `/` unless it already ends with one, then the literal `rest/`,
then the endpoint name. -/
def build_path (basePath endpoint : String) : String :=
  let path := if endsWithSlash basePath then basePath else basePath.push '/'
  (path ++ "rest/") ++ endpoint

/-- One `query_pairs_mut().append_pair(k, v)` call: appends the pair at the
end of the query pair list (percent-encoding of the serialized URL is the
`url` crate's concern and not part of the pair list). -/
def appendPair (q : List (String × String)) (k v : String) :
    List (String × String) :=
  q ++ [(k, v)]

/-- Query composition step of `Client::build_url`, mirroring the sequence of
`append_pair` calls: `u`, the authenticator output, `v`, `c`, `f=json`, then
the caller-supplied endpoint parameters. -/
def build_query (username : String) (authParams : List (String × String))
    (apiVersion clientName : String) (extra : List (String × String)) :
    List (String × String) :=
  let q : List (String × String) := []
  let q := appendPair q "u" username
  let q := authParams.foldl (fun acc kv => appendPair acc kv.1 kv.2) q
  let q := appendPair q "v" apiVersion
  let q := appendPair q "c" clientName
  let q := appendPair q "f" "json"
  extra.foldl (fun acc kv => appendPair acc kv.1 kv.2) q

/-- The observable result of `Client::build_url`: the URL path and the
ordered query pair list. -/
structure UrlModel where
  path : String
  query : List (String × String)
deriving DecidableEq

/-- `Client::build_url`: path composition plus query composition.
`basePath` is the path component of the client's base URL; `authParams` is
the output of `Auth::params` for this request. -/
def build_url (basePath username : String) (authParams : List (String × String))
    (apiVersion clientName endpoint : String) (extra : List (String × String)) :
    UrlModel :=
  { path := build_path basePath endpoint
    query := build_query username authParams apiVersion clientName extra }

/-! ## Envelope deserialization (`src/client.rs`, lines 238–278)

Model of the `serde` derived deserializers for `SubsonicResponseWrapper`,
`SubsonicResponseInner` (with its `#[serde(flatten)]` payload map) and
`ApiErrorResponse`.  Object fields are processed in order; a named field
seen twice is a duplicate-field error; unknown fields of a plain struct are
ignored, while unknown fields of the flattened struct are collected, in
order, into the payload map. -/

/-- `ApiErrorResponse`: `{ code: i32, message: Option<String> }`. -/
structure ApiErrorResponse where
  code : Int
  message : Option String
deriving DecidableEq

/-- `SubsonicResponseInner`: the contents of the `"subsonic-response"` object. -/
structure SubsonicResponseInner where
  status : String
  version : Option String
  server_type : Option String
  serverVersion : Option String
  openSubsonic : Option Bool
  error : Option ApiErrorResponse
  data : List (String × Json)

/-- Deserialize a required `String` field value. -/
def decodeString : Json → Except String String
  | .str s => .ok s
  | _ => .error "invalid type: expected a string"

/-- Deserialize an `Option<String>` field value (`null` is `None`). -/
def decodeOptString : Json → Except String (Option String)
  | .null => .ok none
  | .str s => .ok (some s)
  | _ => .error "invalid type: expected a string"

/-- Deserialize an `Option<bool>` field value. -/
def decodeOptBool : Json → Except String (Option Bool)
  | .null => .ok none
  | .bool b => .ok (some b)
  | _ => .error "invalid type: expected a boolean"

/-- Deserialize an `i32` field value (integral number within range). -/
def decodeI32 : Json → Except String Int
  | .num n =>
      if -2147483648 ≤ n ∧ n ≤ 2147483647 then .ok n
      else .error "invalid value: integer out of range for i32"
  | _ => .error "invalid type: expected an integer"

/-- Deserialize an `i64` field value (integral number within range). -/
def decodeI64 : Json → Except String Int
  | .num n =>
      if -9223372036854775808 ≤ n ∧ n ≤ 9223372036854775807 then .ok n
      else .error "invalid value: integer out of range for i64"
  | _ => .error "invalid type: expected an integer"

/-- Field loop of the derived deserializer for `ApiErrorResponse`:
`code` is required, `message` is optional, unknown fields are ignored. -/
def decodeApiErrorFields : List (String × Json) → Option Int →
    Option (Option String) → Except String ApiErrorResponse
  | [], codeAcc, msgAcc =>
      match codeAcc with
      | none => .error "missing field code"
      | some c => .ok ⟨c, msgAcc.getD none⟩
  | (k, v) :: rest, codeAcc, msgAcc =>
      if k == "code" then
        match codeAcc with
        | some _ => .error "duplicate field code"
        | none =>
            match decodeI32 v with
            | .error e => .error e
            | .ok c => decodeApiErrorFields rest (some c) msgAcc
      else if k == "message" then
        match msgAcc with
        | some _ => .error "duplicate field message"
        | none =>
            match decodeOptString v with
            | .error e => .error e
            | .ok m => decodeApiErrorFields rest codeAcc (some m)
      else decodeApiErrorFields rest codeAcc msgAcc

/-- Deserializer for `ApiErrorResponse`. -/
def decodeApiErrorResponse : Json → Except String ApiErrorResponse
  | .obj fields => decodeApiErrorFields fields none none
  | _ => .error "invalid type: expected struct ApiErrorResponse"

/-- Deserialize an `Option<ApiErrorResponse>` field value. -/
def decodeOptApiError : Json → Except String (Option ApiErrorResponse)
  | .null => .ok none
  | j =>
      match decodeApiErrorResponse j with
      | .error e => .error e
      | .ok r => .ok (some r)

/-- The six envelope field names consumed by the named fields of
`SubsonicResponseInner` (everything else flows into the flattened map). -/
def isEnvelopeField (k : String) : Bool :=
  k == "status" || k == "version" || k == "type" || k == "serverVersion" ||
  k == "openSubsonic" || k == "error"

/-- Accumulator of the field loop for `SubsonicResponseInner`. -/
structure InnerAcc where
  stAcc : Option String
  verAcc : Option (Option String)
  tyAcc : Option (Option String)
  svAcc : Option (Option String)
  osAcc : Option (Option Bool)
  erAcc : Option (Option ApiErrorResponse)
  dataAcc : List (String × Json)

def InnerAcc.initial : InnerAcc := ⟨none, none, none, none, none, none, []⟩

/-- Process one object entry of the `SubsonicResponseInner` deserializer:
match it against the named fields, or collect it into the flattened map. -/
def stepField (k : String) (v : Json) (acc : InnerAcc) :
    Except String InnerAcc :=
  if k == "status" then
    match acc.stAcc with
    | some _ => .error "duplicate field status"
    | none =>
        match decodeString v with
        | .error e => .error e
        | .ok s => .ok { acc with stAcc := some s }
  else if k == "version" then
    match acc.verAcc with
    | some _ => .error "duplicate field version"
    | none =>
        match decodeOptString v with
        | .error e => .error e
        | .ok s => .ok { acc with verAcc := some s }
  else if k == "type" then
    match acc.tyAcc with
    | some _ => .error "duplicate field type"
    | none =>
        match decodeOptString v with
        | .error e => .error e
        | .ok s => .ok { acc with tyAcc := some s }
  else if k == "serverVersion" then
    match acc.svAcc with
    | some _ => .error "duplicate field serverVersion"
    | none =>
        match decodeOptString v with
        | .error e => .error e
        | .ok s => .ok { acc with svAcc := some s }
  else if k == "openSubsonic" then
    match acc.osAcc with
    | some _ => .error "duplicate field openSubsonic"
    | none =>
        match decodeOptBool v with
        | .error e => .error e
        | .ok b => .ok { acc with osAcc := some b }
  else if k == "error" then
    match acc.erAcc with
    | some _ => .error "duplicate field error"
    | none =>
        match decodeOptApiError v with
        | .error e => .error e
        | .ok r => .ok { acc with erAcc := some r }
  else .ok { acc with dataAcc := acc.dataAcc ++ [(k, v)] }

/-- Field loop of the deserializer for `SubsonicResponseInner`: `status` is
required; the optional metadata fields default to `None`; everything else
becomes the flattened payload map. -/
def decodeInnerFields : List (String × Json) → InnerAcc →
    Except String SubsonicResponseInner
  | [], acc =>
      match acc.stAcc with
      | none => .error "missing field status"
      | some st =>
          .ok ⟨st, acc.verAcc.getD none, acc.tyAcc.getD none, acc.svAcc.getD none,
               acc.osAcc.getD none, acc.erAcc.getD none, acc.dataAcc⟩
  | (k, v) :: rest, acc =>
      match stepField k v acc with
      | .error e => .error e
      | .ok acc2 => decodeInnerFields rest acc2

/-- Deserializer for `SubsonicResponseInner`. -/
def decodeInner : Json → Except String SubsonicResponseInner
  | .obj fields => decodeInnerFields fields .initial
  | _ => .error "invalid type: expected struct SubsonicResponseInner"

/-- Field loop of the deserializer for `SubsonicResponseWrapper`: a single
required field renamed `"subsonic-response"`; unknown fields are ignored. -/
def decodeWrapperFields : List (String × Json) →
    Option SubsonicResponseInner → Except String SubsonicResponseInner
  | [], acc =>
      match acc with
      | none => .error "missing field subsonic-response"
      | some r => .ok r
  | (k, v) :: rest, acc =>
      if k == "subsonic-response" then
        match acc with
        | some _ => .error "duplicate field subsonic-response"
        | none =>
            match decodeInner v with
            | .error e => .error e
            | .ok r => decodeWrapperFields rest (some r)
      else decodeWrapperFields rest acc

/-- Deserializer for `SubsonicResponseWrapper` (the top-level object). -/
def decodeWrapper : Json → Except String SubsonicResponseInner
  | .obj fields => decodeWrapperFields fields none
  | _ => .error "invalid type: expected struct SubsonicResponseWrapper"

/-! ## `Client::get_response` and `Client::get_bytes` (`src/client.rs`) -/

/-- The `map_or_else` mapping a failure envelope's optional error object to
a `SubsonicApiError` (shared shape of `get_response` and `get_bytes`):
a present error object contributes its code and its message defaulted to
the empty string; an absent one yields code `0` with a fallback message. -/
def failApiError (err : Option ApiErrorResponse) (fallbackMsg : String) :
    SubsonicApiError :=
  match err with
  | none => ⟨0, fallbackMsg⟩
  | some e => ⟨e.code, e.message.getD ""⟩

/-- Decoding stage of `Client::get_response`: the argument is the result of
the JSON parser on the response text (`serde_json::from_str`, whose failure
carries a diagnostic string).  A failure status maps the optional error
object through `failApiError`; a success status yields the payload map. -/
def get_response_decode (body : Except String Json) :
    Except Error (List (String × Json)) :=
  match body with
  | .error e => .error (.Parse e)
  | .ok j =>
      match decodeWrapper j with
      | .error e => .error (.Parse e)
      | .ok inner =>
          if inner.status ≠ "ok" then
            .error (.Api (failApiError inner.error
              "Unknown API error (status != ok but no error object)"))
          else .ok inner.data

/-- Substring containment on strings (`str::contains` with a string pattern). -/
def strContains (s pat : String) : Bool :=
  (List.range (s.data.length + 1)).any
    (fun i => List.isPrefixOf pat.data (s.data.drop i))

/-- ASCII lowercasing of one character (all media-type characters are ASCII,
so this coincides with `str::to_lowercase` on content-type headers). -/
def asciiLower (c : Char) : Char :=
  if 65 ≤ c.toNat ∧ c.toNat ≤ 90 then Char.ofNat (c.toNat + 32) else c

/-- The content-type test of `Client::get_bytes`: lowercase the declared
content type and look for `application/json` or `text/json` as substrings. -/
def ctIsStructured (contentType : String) : Bool :=
  let ct := String.mk (contentType.data.map asciiLower)
  strContains ct "application/json" || strContains ct "text/json"

/-- Decoding stage of `Client::get_bytes`.  `contentType` is the declared
`Content-Type` header (absent or non-ASCII headers become `""`);
`bodyJson` is the JSON parse of the body text, consulted only on the
structured branch; `bodyBytes` are the raw body bytes. -/
def get_bytes_resolve (contentType : Option String)
    (bodyJson : Except String Json) (bodyBytes : List Nat) :
    Except Error (List Nat) :=
  if ctIsStructured (contentType.getD "") then
    match bodyJson with
    | .error e => .error (.Parse e)
    | .ok j =>
        match decodeWrapper j with
        | .error e => .error (.Parse e)
        | .ok inner =>
            if inner.status ≠ "ok" then
              .error (.Api (failApiError inner.error
                "Unknown API error on binary endpoint"))
            else
              .error (.Parse "Expected binary response but got JSON with status=ok")
  else .ok bodyBytes

/-! ## Payload extraction in `src/api/browsing.rs` -/

/-- `MusicFolder` from `src/data/common.rs`: `{ id: i64, name: Option<String> }`. -/
structure MusicFolder where
  id : Int
  name : Option String
deriving DecidableEq

/-- Field loop of the derived deserializer for `MusicFolder`. -/
def decodeMusicFolderFields : List (String × Json) → Option Int →
    Option (Option String) → Except String MusicFolder
  | [], idAcc, nameAcc =>
      match idAcc with
      | none => .error "missing field id"
      | some i => .ok ⟨i, nameAcc.getD none⟩
  | (k, v) :: rest, idAcc, nameAcc =>
      if k == "id" then
        match idAcc with
        | some _ => .error "duplicate field id"
        | none =>
            match decodeI64 v with
            | .error e => .error e
            | .ok i => decodeMusicFolderFields rest (some i) nameAcc
      else if k == "name" then
        match nameAcc with
        | some _ => .error "duplicate field name"
        | none =>
            match decodeOptString v with
            | .error e => .error e
            | .ok n => decodeMusicFolderFields rest idAcc (some n)
      else decodeMusicFolderFields rest idAcc nameAcc

/-- Deserializer for `MusicFolder`. -/
def decodeMusicFolder : Json → Except String MusicFolder
  | .obj fields => decodeMusicFolderFields fields none none
  | _ => .error "invalid type: expected struct MusicFolder"

/-- Element loop of `Vec<T>` deserialization. -/
def decodeListAux (dec : Json → Except String α) :
    List Json → Except String (List α)
  | [] => .ok []
  | x :: rest =>
      match dec x with
      | .error e => .error e
      | .ok a =>
          match decodeListAux dec rest with
          | .error e => .error e
          | .ok l => .ok (a :: l)

/-- `Vec<T>` deserialization (`serde_json::from_value` on a sequence). -/
def decodeList (dec : Json → Except String α) : Json → Except String (List α)
  | .arr xs => decodeListAux dec xs
  | _ => .error "invalid type: expected a sequence"

/-- The field-name quoting of the missing-field diagnostics in
`src/api/browsing.rs` (the name enclosed in ASCII apostrophes, code 39). -/
def quoted (s : String) : String :=
  String.mk (Char.ofNat 39 :: s.data ++ [Char.ofNat 39])

/-- The `Missing ... in response` parse-error message of `src/api/browsing.rs`. -/
def missingFieldMsg (fieldName : String) : String :=
  ("Missing " ++ quoted fieldName) ++ " in response"

/-- Payload handling of `Client::get_music_folders`: look up
`musicFolders`, then `musicFolder` inside it, defaulting to an empty JSON
array when either is absent. -/
def get_music_folders_extract (dat : List (String × Json)) : Json :=
  match jlookup dat "musicFolders" with
  | some v =>
      match jget v "musicFolder" with
      | some f => f
      | none => .arr []
  | none => .arr []

/-- Payload handling of `Client::get_music_folders` after a successful
envelope: extraction followed by `Vec<MusicFolder>` deserialization. -/
def get_music_folders_post (dat : List (String × Json)) :
    Except Error (List MusicFolder) :=
  match decodeList decodeMusicFolder (get_music_folders_extract dat) with
  | .error e => .error (.Parse e)
  | .ok l => .ok l

/-- Payload handling of `Client::get_artists` after a successful envelope:
the mandatory `artists` field is looked up; its absence is the distinct
missing-field parse error (the found value then feeds the `ArtistsId3`
deserializer, which is irrelevant to the absent-field path). -/
def get_artists_find (dat : List (String × Json)) : Except Error Json :=
  match jlookup dat "artists" with
  | none => .error (.Parse (missingFieldMsg "artists"))
  | some v => .ok v

/-! ## Concrete response envelopes used to instantiate the theorems -/

/-- The bad-credentials failure envelope of the specification example. -/
def failEnvelope40 : Json :=
  Json.obj [("subsonic-response", Json.obj
    [("status", Json.str "failed"), ("version", Json.str "1.16.1"),
     ("error", Json.obj [("code", Json.num 40),
                         ("message", Json.str "Wrong username or password")])])]

/-- The decoded inner object of `failEnvelope40`. -/
def failInner40 : SubsonicResponseInner :=
  ⟨"failed", some "1.16.1", none, none, none,
   some ⟨40, some "Wrong username or password"⟩, []⟩

/-- Inner fields of a success envelope carrying an extra `license` field. -/
def okLicenseFields : List (String × Json) :=
  [("status", Json.str "ok"), ("version", Json.str "1.16.1"),
   ("license", Json.obj [("valid", Json.bool true)])]

/-- The decoded inner object of a success envelope over `okLicenseFields`. -/
def okLicenseInner : SubsonicResponseInner :=
  ⟨"ok", some "1.16.1", none, none, none, none,
   [("license", Json.obj [("valid", Json.bool true)])]⟩

/-- A success envelope that nevertheless carries an error object. -/
def okWithErrorJson : Json :=
  Json.obj [("subsonic-response", Json.obj
    [("status", Json.str "ok"),
     ("error", Json.obj [("code", Json.num 10), ("message", Json.str "stray")]),
     ("album", Json.str "x")])]

/-- The decoded inner object of `okWithErrorJson`. -/
def okWithErrorInner : SubsonicResponseInner :=
  ⟨"ok", none, none, none, none, some ⟨10, some "stray"⟩,
   [("album", Json.str "x")]⟩

/-- A failure envelope whose error object has a code but no message. -/
def failNoMsgJson : Json :=
  Json.obj [("subsonic-response", Json.obj
    [("status", Json.str "failed"),
     ("error", Json.obj [("code", Json.num 50)])])]

/-- The decoded inner object of `failNoMsgJson`. -/
def failNoMsgInner : SubsonicResponseInner :=
  ⟨"failed", none, none, none, none, some ⟨50, none⟩, []⟩

/-- Lowercase hex digits as characters. -/
def isLowerHexDigit (c : Char) : Bool :=
  (48 ≤ c.toNat && c.toNat ≤ 57) || (97 ≤ c.toNat && c.toNat ≤ 102)

/-! ## Helper lemmas -/

theorem push_slash (s : String) : s.push '/' = s ++ "/" := by
  apply String.ext
  simp only [String.data_push, String.data_append]

theorem strAppend_assoc (a b c : String) : a ++ b ++ c = a ++ (b ++ c) := by
  apply String.ext
  simp [List.append_assoc]

theorem foldl_appendPair (ps q : List (String × String)) :
    ps.foldl (fun acc kv => appendPair acc kv.1 kv.2) q = q ++ ps := by
  induction ps generalizing q with
  | nil => simp
  | cons kv rest ih =>
    rw [List.foldl_cons, ih]
    simp [appendPair]

theorem hexChars_length (bs : List Nat) :
    (hexChars bs).length = 2 * bs.length := by
  induction bs with
  | nil => rfl
  | cons b rest ih =>
    simp [hexChars, ih]
    omega

theorem hex_encode_length (bs : List Nat) :
    (hex_encode bs).length = 2 * bs.length := by
  simpa [hex_encode] using hexChars_length bs

theorem hexDigit_lower (n : Nat) (h : n < 16) :
    isLowerHexDigit (hexDigit n) = true := by
  interval_cases n <;> decide

theorem hexChars_lower (bs : List Nat) :
    ∀ c ∈ hexChars bs, isLowerHexDigit c = true := by
  induction bs with
  | nil => simp [hexChars]
  | cons b rest ih =>
    intro c hc
    simp only [hexChars, List.mem_cons] at hc
    rcases hc with h | h | h
    · subst h; exact hexDigit_lower _ (Nat.mod_lt _ (by omega))
    · subst h; exact hexDigit_lower _ (Nat.mod_lt _ (by omega))
    · exact ih c h

theorem md5_length (msg : List Nat) : (md5 msg).length = 16 := by
  simp [md5, md5Digest, wordLE]

theorem stepField_dataAcc {k : String} {v : Json} {acc acc2 : InnerAcc}
    (h : stepField k v acc = .ok acc2) :
    acc2.dataAcc =
      if isEnvelopeField k then acc.dataAcc else acc.dataAcc ++ [(k, v)] := by
  unfold stepField at h
  by_cases h1 : k == "status"
  · rw [if_pos h1] at h
    cases hacc : acc.stAcc <;> simp [hacc] at h
    cases hdv : decodeString v <;> simp [hdv] at h
    simp [← h, isEnvelopeField, h1]
  · rw [if_neg h1] at h
    by_cases h2 : k == "version"
    · rw [if_pos h2] at h
      cases hacc : acc.verAcc <;> simp [hacc] at h
      cases hdv : decodeOptString v <;> simp [hdv] at h
      simp [← h, isEnvelopeField, h2]
    · rw [if_neg h2] at h
      by_cases h3 : k == "type"
      · rw [if_pos h3] at h
        cases hacc : acc.tyAcc <;> simp [hacc] at h
        cases hdv : decodeOptString v <;> simp [hdv] at h
        simp [← h, isEnvelopeField, h3]
      · rw [if_neg h3] at h
        by_cases h4 : k == "serverVersion"
        · rw [if_pos h4] at h
          cases hacc : acc.svAcc <;> simp [hacc] at h
          cases hdv : decodeOptString v <;> simp [hdv] at h
          simp [← h, isEnvelopeField, h4]
        · rw [if_neg h4] at h
          by_cases h5 : k == "openSubsonic"
          · rw [if_pos h5] at h
            cases hacc : acc.osAcc <;> simp [hacc] at h
            cases hdv : decodeOptBool v <;> simp [hdv] at h
            simp [← h, isEnvelopeField, h5]
          · rw [if_neg h5] at h
            by_cases h6 : k == "error"
            · rw [if_pos h6] at h
              cases hacc : acc.erAcc <;> simp [hacc] at h
              cases hdv : decodeOptApiError v <;> simp [hdv] at h
              simp [← h, isEnvelopeField, h6]
            · rw [if_neg h6] at h
              simp only [Except.ok.injEq] at h
              simp [← h, isEnvelopeField, h1, h2, h3, h4, h5, h6]

theorem decodeInnerFields_data :
    ∀ (fs : List (String × Json)) (acc : InnerAcc)
      (inner : SubsonicResponseInner),
      decodeInnerFields fs acc = .ok inner →
      inner.data = acc.dataAcc ++ fs.filter (fun kv => !(isEnvelopeField kv.1)) := by
  intro fs
  induction fs with
  | nil =>
    intro acc inner h
    simp only [decodeInnerFields] at h
    cases hacc : acc.stAcc with
    | none => simp [hacc] at h
    | some st =>
      simp [hacc] at h
      rw [← h]
      simp
  | cons kv rest ih =>
    intro acc inner h
    obtain ⟨k, v⟩ := kv
    simp only [decodeInnerFields] at h
    cases hsf : stepField k v acc with
    | error e => simp [hsf] at h
    | ok acc2 =>
      simp only [hsf] at h
      have hd := stepField_dataAcc hsf
      rw [ih acc2 inner h, hd]
      by_cases he : isEnvelopeField k
      · simp [List.filter_cons, he]
      · simp [List.filter_cons, he]

theorem decodeInner_data {fs : List (String × Json)}
    {inner : SubsonicResponseInner} (h : decodeInner (Json.obj fs) = .ok inner) :
    inner.data = fs.filter (fun kv => !(isEnvelopeField kv.1)) := by
  simpa [InnerAcc.initial] using decodeInnerFields_data fs .initial inner h

/-! ## Claim theorems -/

/-- C1: for every base URL path and endpoint name, `build_url` produces a URL
whose path is the base URL's existing path, with a `/` appended if it does not
already end with one, followed by the literal `rest/` and the endpoint name;
the base path is always preserved as a prefix (never replaced as in a
last-segment join), and base path `/music/` with endpoint `getArtists` yields
exactly `/music/rest/getArtists`. -/
theorem claim1_build_url_path (basePath endpoint username apiVersion clientName : String)
    (authParams extra : List (String × String)) :
    (build_url basePath username authParams apiVersion clientName endpoint extra).path
      = (if endsWithSlash basePath then basePath else basePath ++ "/") ++ "rest/" ++ endpoint
    ∧ (∃ tail, (build_url basePath username authParams apiVersion clientName endpoint extra).path
        = basePath ++ tail)
    ∧ (build_url "/music/" username authParams apiVersion clientName "getArtists" extra).path
      = "/music/rest/getArtists" := by
  refine ⟨?_, ?_, rfl⟩
  · show build_path basePath endpoint = _
    unfold build_path
    by_cases hb : endsWithSlash basePath
    · simp [hb]
    · simp [hb, push_slash]
  · show ∃ tail, build_path basePath endpoint = _
    unfold build_path
    by_cases hb : endsWithSlash basePath
    · exact ⟨"rest/" ++ endpoint, by rw [if_pos hb, strAppend_assoc]⟩
    · exact ⟨"/" ++ ("rest/" ++ endpoint), by
        rw [if_neg hb, push_slash, strAppend_assoc, strAppend_assoc]⟩

/-- C2: the binary-endpoint resolver (`get_bytes`) returns the raw body bytes
unmodified for every non-structured content type; for a structured content
type (case-insensitive `application/json` or `text/json` match) it decodes
the body as an envelope, maps a failure envelope to the corresponding
structured API error and an `ok` envelope to a parse error — never bytes. -/
theorem claim2_binary_guard (ct : Option String) (pj : Except String Json)
    (bodyBytes : List Nat) :
    (ctIsStructured (ct.getD "") = false →
      get_bytes_resolve ct pj bodyBytes = .ok bodyBytes)
    ∧ (∀ j inner, ctIsStructured (ct.getD "") = true → pj = .ok j →
        decodeWrapper j = .ok inner →
        (inner.status ≠ "ok" →
          get_bytes_resolve ct pj bodyBytes
            = .error (.Api (failApiError inner.error
                "Unknown API error on binary endpoint")))
        ∧ (inner.status = "ok" →
          get_bytes_resolve ct pj bodyBytes
            = .error (.Parse "Expected binary response but got JSON with status=ok"))) := by
  constructor
  · intro h
    simp [get_bytes_resolve, h]
  · intro j inner hct hpj hdec
    subst hpj
    constructor
    · intro hst
      simp [get_bytes_resolve, hct, hdec, hst]
    · intro hst
      simp [get_bytes_resolve, hct, hdec, hst]

/-- Witness for C2: a non-structured response passes through as bytes; a
failure envelope on `application/json` (case-insensitive, with parameters)
becomes the API error; an `ok` envelope on `text/json` becomes a parse
error. -/
theorem claim2_witness :
    get_bytes_resolve (some "image/png") (.error "x") [7, 8] = .ok [7, 8]
    ∧ get_bytes_resolve (some "Application/JSON; charset=utf-8")
        (.ok failEnvelope40) [] = .error (.Api ⟨40, "Wrong username or password"⟩)
    ∧ get_bytes_resolve (some "text/json") (.ok okWithErrorJson) [1]
        = .error (.Parse "Expected binary response but got JSON with status=ok") := by
  refine ⟨(claim2_binary_guard (some "image/png") (.error "x") [7, 8]).1 rfl, ?_, ?_⟩
  · exact ((claim2_binary_guard (some "Application/JSON; charset=utf-8")
      (.ok failEnvelope40) []).2 failEnvelope40 failInner40 rfl rfl rfl).1 (by decide)
  · exact ((claim2_binary_guard (some "text/json") (.ok okWithErrorJson) [1]).2
      okWithErrorJson okWithErrorInner rfl rfl rfl).2 rfl

/-- C3: decoding a well-formed envelope with a non-`ok` status returns an API
error, never a parse failure: a present error object contributes its numeric
code and message, an absent one yields the synthesized code-0 anomaly error;
code 40 with the bad-credentials message resolves through `error_code` to the
known bad-credentials condition. -/
theorem claim3_failure_envelope (j : Json) (inner : SubsonicResponseInner)
    (hdec : decodeWrapper j = .ok inner) (hst : inner.status ≠ "ok") :
    (∀ e, inner.error = some e →
      get_response_decode (.ok j) = .error (.Api ⟨e.code, e.message.getD ""⟩))
    ∧ (inner.error = none →
      get_response_decode (.ok j)
        = .error (.Api ⟨0, "Unknown API error (status != ok but no error object)"⟩))
    ∧ (SubsonicApiError.mk 40 "Wrong username or password").error_code
        = some SubsonicErrorCode.WrongCredentials := by
  refine ⟨?_, ?_, rfl⟩
  · intro e he
    simp [get_response_decode, hdec, hst, failApiError, he]
  · intro he
    simp [get_response_decode, hdec, hst, failApiError, he]

/-- Witness for C3 at the specification's bad-credentials envelope. -/
theorem claim3_witness :
    get_response_decode (.ok failEnvelope40)
      = .error (.Api ⟨40, "Wrong username or password"⟩) :=
  (claim3_failure_envelope failEnvelope40 failInner40 rfl (by decide)).1
    ⟨40, some "Wrong username or password"⟩ rfl

/-- C4: the query string produced by `build_url` contains, in this fixed
order: `u`, then the authenticator's output parameters, then `v`, then `c`,
then `f=json`, then every caller-supplied pair in the order given, with
duplicate names preserved as repeated keys. -/
theorem claim4_query_order (basePath username apiVersion clientName endpoint : String)
    (authParams extra : List (String × String)) :
    (build_url basePath username authParams apiVersion clientName endpoint extra).query
      = ("u", username) :: (authParams ++ (("v", apiVersion) :: ("c", clientName)
          :: ("f", "json") :: extra)) := by
  show build_query username authParams apiVersion clientName extra = _
  simp only [build_query]
  rw [foldl_appendPair, foldl_appendPair]
  simp [appendPair]

/-- C5: a Token authenticator signs as exactly
`[(t, digest_hex), (s, salt_hex)]`, where `salt_hex` is the 12-lowercase-hex
encoding of the 6 random bytes and `digest_hex` is the 32-lowercase-hex MD5
of `password || salt` (no separator); the digest is deterministic. -/
theorem claim5_token_params (password : String) (saltBytes : List Nat)
    (hlen : saltBytes.length = 6) (_hbytes : ∀ b ∈ saltBytes, b < 256) :
    Auth.params (Auth.Token password) saltBytes
      = [("t", compute_token password (hex_encode saltBytes)),
         ("s", hex_encode saltBytes)]
    ∧ (hex_encode saltBytes).length = 12
    ∧ (∀ c ∈ (hex_encode saltBytes).data, isLowerHexDigit c = true)
    ∧ compute_token password (hex_encode saltBytes)
        = hex_encode (md5 (strBytes password ++ strBytes (hex_encode saltBytes)))
    ∧ (compute_token password (hex_encode saltBytes)).length = 32
    ∧ (∀ c ∈ (compute_token password (hex_encode saltBytes)).data,
        isLowerHexDigit c = true)
    ∧ compute_token password (hex_encode saltBytes)
        = compute_token password (hex_encode saltBytes) := by
  refine ⟨rfl, ?_, ?_, rfl, ?_, ?_, rfl⟩
  · rw [hex_encode_length, hlen]
  · exact hexChars_lower saltBytes
  · show (hex_encode (md5 _)).length = 32
    rw [hex_encode_length, md5_length]
  · exact hexChars_lower _

set_option maxRecDepth 8192 in
/-- Witness for C5 at password `sesame` and salt bytes `ab cd ef 01 23 45`
(the digest value matches an independent MD5 computation of
`sesameabcdef012345`). -/
theorem claim5_witness :
    Auth.params (Auth.Token "sesame") [171, 205, 239, 1, 35, 69]
      = [("t", "2a723ef42ed623fd836ae0b62c9b7623"), ("s", "abcdef012345")]
    ∧ (hex_encode [171, 205, 239, 1, 35, 69]).length = 12
    ∧ (compute_token "sesame" (hex_encode [171, 205, 239, 1, 35, 69])).length = 32 := by
  have h := claim5_token_params "sesame" [171, 205, 239, 1, 35, 69] rfl (by decide)
  refine ⟨?_, h.2.1, h.2.2.2.2.1⟩
  rw [h.1]
  rfl

/-- C6: decoding a success envelope returns a payload map containing every
field of the inner object except the fixed envelope fields `status`,
`version`, `type`, `serverVersion`, `openSubsonic` and `error`. -/
theorem claim6_success_payload (fs : List (String × Json))
    (inner : SubsonicResponseInner) (hdec : decodeInner (Json.obj fs) = .ok inner)
    (hst : inner.status = "ok") :
    get_response_decode (.ok (Json.obj [("subsonic-response", Json.obj fs)]))
      = .ok (fs.filter (fun kv => !(isEnvelopeField kv.1))) := by
  have hw : decodeWrapper (Json.obj [("subsonic-response", Json.obj fs)]) = .ok inner := by
    simp [decodeWrapper, decodeWrapperFields, hdec]
  rw [← decodeInner_data hdec]
  simp [get_response_decode, hw, hst]

/-- Witness for C6: a success envelope with the extra `license` field decodes
to a payload map that contains `license` and excludes `status`/`version`. -/
theorem claim6_witness :
    get_response_decode (.ok (Json.obj [("subsonic-response", Json.obj okLicenseFields)]))
      = .ok [("license", Json.obj [("valid", Json.bool true)])]
    ∧ (jlookup (okLicenseFields.filter (fun kv => !(isEnvelopeField kv.1)))
        "license").isSome = true
    ∧ (jlookup (okLicenseFields.filter (fun kv => !(isEnvelopeField kv.1)))
        "status").isSome = false
    ∧ (jlookup (okLicenseFields.filter (fun kv => !(isEnvelopeField kv.1)))
        "version").isSome = false :=
  ⟨claim6_success_payload okLicenseFields okLicenseInner rfl rfl, rfl, rfl, rfl⟩

/-- C7: a Plaintext authenticator signs as exactly the single pair
`p = enc:<lowercase hex of the secret bytes>`; for secret `sesame` exactly
`enc:736573616d65`. -/
theorem claim7_plain_params (secret : String) (saltBytes : List Nat) :
    Auth.params (Auth.Plain secret) saltBytes
      = [("p", "enc:" ++ hex_encode (strBytes secret))]
    ∧ Auth.params (Auth.Plain "sesame") saltBytes = [("p", "enc:736573616d65")] :=
  ⟨rfl, rfl⟩

/-- C8: when a successful envelope's payload map lacks the expected field,
the list-contract endpoint (`get_music_folders`) returns the empty
collection, while the mandatory-object endpoint (`get_artists`) returns the
distinct missing-field parse error. -/
theorem claim8_missing_payload_field (dat : List (String × Json)) :
    (jlookup dat "musicFolders" = none → get_music_folders_post dat = .ok [])
    ∧ (jlookup dat "artists" = none →
        get_artists_find dat = .error (.Parse (missingFieldMsg "artists"))) := by
  constructor
  · intro h
    simp [get_music_folders_post, get_music_folders_extract, h, decodeList,
      decodeListAux]
  · intro h
    simp [get_artists_find, h]

/-- Witness for C8 at a payload carrying only an unrelated field. -/
theorem claim8_witness :
    get_music_folders_post [("chatMessages", Json.arr [])] = .ok []
    ∧ get_artists_find [("chatMessages", Json.arr [])]
        = .error (.Parse (missingFieldMsg "artists")) :=
  ⟨(claim8_missing_payload_field [("chatMessages", Json.arr [])]).1 rfl,
   (claim8_missing_payload_field [("chatMessages", Json.arr [])]).2 rfl⟩

/-- C9: when the inner status is exactly `ok`, decoding returns the payload
map as a success even when a nested error object is also present — the error
object is silently discarded. -/
theorem claim9_ok_ignores_error (j : Json) (inner : SubsonicResponseInner)
    (e : ApiErrorResponse) (hdec : decodeWrapper j = .ok inner)
    (hst : inner.status = "ok") (_herr : inner.error = some e) :
    get_response_decode (.ok j) = .ok inner.data := by
  simp [get_response_decode, hdec, hst]

/-- Witness for C9 at an `ok` envelope that also carries an error object. -/
theorem claim9_witness :
    get_response_decode (.ok okWithErrorJson) = .ok [("album", Json.str "x")] :=
  claim9_ok_ignores_error okWithErrorJson okWithErrorInner ⟨10, some "stray"⟩
    rfl rfl rfl

/-- C10: a failure envelope whose error object carries a code but no message
still decodes successfully, yielding an API error with that code and the
empty string as message. -/
theorem claim10_missing_message (j : Json) (inner : SubsonicResponseInner)
    (e : ApiErrorResponse) (hdec : decodeWrapper j = .ok inner)
    (hst : inner.status ≠ "ok") (herr : inner.error = some e)
    (hmsg : e.message = none) :
    get_response_decode (.ok j) = .error (.Api ⟨e.code, ""⟩) := by
  simp [get_response_decode, hdec, hst, failApiError, herr, hmsg]

/-- Witness for C10 at a failure envelope whose error object is `code 50`
with no message field. -/
theorem claim10_witness :
    get_response_decode (.ok failNoMsgJson) = .error (.Api ⟨50, ""⟩) :=
  claim10_missing_message failNoMsgJson failNoMsgInner ⟨50, none⟩ rfl
    (by decide) rfl rfl

end OpenSubsonic
